import Mathlib

/-!
Verification of the ACE correction pipeline (`process_file` in
`app_lab_phase1.py`).

The pipeline is a pure transformation of a list of rows.  Numeric cell
values are modelled as exact rationals (`ℚ`); the summary scalars, which
the Python code computes with IEEE floats and which can become NaN or
infinite (empty mean, division by a zero baseline), are modelled by the
type `PyFloat` that adjoins `nan`, `inf` and `ninf` to `ℚ`.  Signed zero
is not modelled.  Python's `round(x, 4)` rounds half to even at the
value level; `round4` is its exact-rational counterpart.  File writing
and the Streamlit UI are I/O plumbing outside the embedded core.
-/

namespace LabApp

/-- A Python float value as produced by the pipeline's summary
arithmetic: a finite rational, or one of the IEEE specials. -/
inductive PyFloat where
  | fin : ℚ → PyFloat
  | nan : PyFloat
  | inf : PyFloat
  | ninf : PyFloat
deriving DecidableEq, Repr

/-- An input row: the required numeric columns `ace_before` and
`ace_after`, plus the remaining columns (`timestamp` and any extra
columns), carried opaquely in `extra`. -/
structure InputRow (ε : Type) where
  ace_before : ℚ
  ace_after : ℚ
  extra : ε
deriving DecidableEq, Repr

/-- A row of Table 1: the input columns plus the four derived detection
columns added by lines 15-32 of `process_file`. -/
structure DetectionRow (ε : Type) where
  ace_before : ℚ
  ace_after : ℚ
  extra : ε
  anomaly_score : ℤ
  is_anomaly : Bool
  more_or_less : String
  error : ℚ
deriving DecidableEq, Repr

/-- A row of Table 2: Table 1's columns plus `estimated`. -/
structure CorrectedRow (ε : Type) extends DetectionRow ε where
  estimated : PyFloat
deriving DecidableEq, Repr

/-- Line 15: `np.where(df['ace_before'] != df['ace_after'], 1, -1)`. -/
def anomalyScore (b a : ℚ) : ℤ :=
  if b ≠ a then 1 else -1

/-- Lines 21-26: `'more' if after > before else 'less' if after < before
else 'equal'`. -/
def moreOrLess (b a : ℚ) : String :=
  if a > b then "more" else if a < b then "less" else "equal"

/-- Lines 29-32: `abs(after - before) if before != after else 0`. -/
def rowError (b a : ℚ) : ℚ :=
  if b ≠ a then |a - b| else 0

/-- Lines 15-32 applied to one row: the derived detection columns
(line 18: `is_anomaly = anomaly_score == 1`), with the input columns
carried through unchanged. -/
def detectRow {ε : Type} (x : InputRow ε) : DetectionRow ε :=
  { ace_before := x.ace_before
    ace_after := x.ace_after
    extra := x.extra
    anomaly_score := anomalyScore x.ace_before x.ace_after
    is_anomaly := decide (anomalyScore x.ace_before x.ace_after = 1)
    more_or_less := moreOrLess x.ace_before x.ace_after
    error := rowError x.ace_before x.ace_after }

/-- `pandas.Series.mean`: NaN on an empty column, otherwise the finite
arithmetic mean. -/
def listMean (xs : List ℚ) : PyFloat :=
  if xs.isEmpty then PyFloat.nan else PyFloat.fin (xs.sum / xs.length)

/-- IEEE division as performed by numpy scalars on line 39: division by
zero yields NaN (0/0) or a signed infinity, with a warning but no
exception. -/
def pyDiv : PyFloat → PyFloat → PyFloat
  | PyFloat.nan, _ => PyFloat.nan
  | _, PyFloat.nan => PyFloat.nan
  | PyFloat.fin a, PyFloat.fin b =>
      if b = 0 then
        if a = 0 then PyFloat.nan
        else if 0 < a then PyFloat.inf else PyFloat.ninf
      else PyFloat.fin (a / b)
  | PyFloat.inf, PyFloat.fin b => if b < 0 then PyFloat.ninf else PyFloat.inf
  | PyFloat.ninf, PyFloat.fin b => if b < 0 then PyFloat.inf else PyFloat.ninf
  | PyFloat.fin _, PyFloat.inf => PyFloat.fin 0
  | PyFloat.fin _, PyFloat.ninf => PyFloat.fin 0
  | PyFloat.inf, PyFloat.inf => PyFloat.nan
  | PyFloat.inf, PyFloat.ninf => PyFloat.nan
  | PyFloat.ninf, PyFloat.inf => PyFloat.nan
  | PyFloat.ninf, PyFloat.ninf => PyFloat.nan

/-- Line 39's trailing `* 100`. -/
def pyMul100 : PyFloat → PyFloat
  | PyFloat.fin a => PyFloat.fin (a * 100)
  | PyFloat.nan => PyFloat.nan
  | PyFloat.inf => PyFloat.inf
  | PyFloat.ninf => PyFloat.ninf

/-- Line 41: Python's `min(x, 5.0)`, which returns the second argument
only when it compares strictly smaller (so `min(nan, 5.0)` is NaN). -/
def pyMin (x : PyFloat) (c : ℚ) : PyFloat :=
  match x with
  | PyFloat.fin a => if c < a then PyFloat.fin c else PyFloat.fin a
  | PyFloat.nan => PyFloat.nan
  | PyFloat.inf => PyFloat.fin c
  | PyFloat.ninf => PyFloat.ninf

/-- Round a rational to the nearest integer, ties to even: the rounding
of Python's built-in `round`. -/
def roundHalfEven (x : ℚ) : ℤ :=
  let n := ⌊x⌋
  let r := x - n
  if r < 1/2 then n
  else if 1/2 < r then n + 1
  else if Even n then n else n + 1

/-- Python's `round(x, 4)` on line 47: round half to even at four
decimal digits. -/
def round4 (x : ℚ) : ℚ :=
  (roundHalfEven (x * 10000) : ℚ) / 10000

/-- Lines 45-48 applied to one row: `before` verbatim when
`anomaly_score == -1`, else `round(before * (1 + capped_pct / 100), 4)`.
A non-finite `capped_pct` propagates through the float arithmetic. -/
def estRow {ε : Type} (capped : PyFloat) (r : DetectionRow ε) : PyFloat :=
  if r.anomaly_score = -1 then PyFloat.fin r.ace_before
  else
    match capped with
    | PyFloat.fin c => PyFloat.fin (round4 (r.ace_before * (1 + c / 100)))
    | PyFloat.nan => PyFloat.nan
    | PyFloat.inf =>
        if 0 < r.ace_before then PyFloat.inf
        else if r.ace_before < 0 then PyFloat.ninf else PyFloat.nan
    | PyFloat.ninf =>
        if 0 < r.ace_before then PyFloat.ninf
        else if r.ace_before < 0 then PyFloat.inf else PyFloat.nan

/-- Build a Table 2 row from a Table 1 row (lines 44-49). -/
def correctRow {ε : Type} (capped : PyFloat) (r : DetectionRow ε) : CorrectedRow ε :=
  { r with estimated := estRow capped r }

/-- The values `process_file` returns (line 62), minus the two output
file paths, which are pure I/O. -/
structure Result (ε : Type) where
  table1 : List (DetectionRow ε)
  table2 : List (CorrectedRow ε)
  avg_error : PyFloat
  avg_error_pct : PyFloat
  total_error : ℚ
  capped_pct : PyFloat
deriving Repr

/-- The whole transformation of `process_file` (lines 10-62, excluding
the Excel I/O): build Table 1, compute the four summary scalars, build
Table 2. -/
def processFile {ε : Type} (rows : List (InputRow ε)) : Result ε :=
  let table1 := rows.map detectRow
  let avg_error := listMean (table1.map (·.error))
  let avg_error_pct :=
    pyMul100 (pyDiv avg_error (listMean (table1.map (·.ace_before))))
  let total_error := (table1.map (·.error)).sum
  let capped_pct := pyMin avg_error_pct 5
  let table2 := table1.map (correctRow capped_pct)
  { table1 := table1
    table2 := table2
    avg_error := avg_error
    avg_error_pct := avg_error_pct
    total_error := total_error
    capped_pct := capped_pct }

/-- Forget the derived columns of a Table 1 row, keeping the input
columns: used to feed Table A's own values back into the pipeline. -/
def toInputRow {ε : Type} (r : DetectionRow ε) : InputRow ε :=
  { ace_before := r.ace_before, ace_after := r.ace_after, extra := r.extra }

/-- Three sample rows, the worked scenario of the specification. -/
def sampleRows : List (InputRow Unit) :=
  [⟨10, 10, ()⟩, ⟨10, 12, ()⟩, ⟨5, 4, ()⟩]

lemma processFile_table1 {ε : Type} (rows : List (InputRow ε)) :
    (processFile rows).table1 = rows.map detectRow := rfl

lemma processFile_avg_error {ε : Type} (rows : List (InputRow ε)) :
    (processFile rows).avg_error =
      listMean ((processFile rows).table1.map (·.error)) := rfl

lemma processFile_avg_error_pct {ε : Type} (rows : List (InputRow ε)) :
    (processFile rows).avg_error_pct =
      pyMul100 (pyDiv (processFile rows).avg_error
        (listMean ((processFile rows).table1.map (·.ace_before)))) := rfl

lemma processFile_total_error {ε : Type} (rows : List (InputRow ε)) :
    (processFile rows).total_error =
      ((processFile rows).table1.map (·.error)).sum := rfl

lemma processFile_capped_pct {ε : Type} (rows : List (InputRow ε)) :
    (processFile rows).capped_pct =
      pyMin (processFile rows).avg_error_pct 5 := rfl

lemma processFile_table2 {ε : Type} (rows : List (InputRow ε)) :
    (processFile rows).table2 =
      (processFile rows).table1.map (correctRow (processFile rows).capped_pct) := rfl

/-- Claim C1: for every input row, the anomaly classifier produces
anomaly_score = +1 if before ≠ after and −1 otherwise; direction "more"
if after > before, "less" if after < before, "equal" otherwise; and
error = |after − before| when the two differ and exactly 0 when they
are equal. -/
theorem C1_classifier {ε : Type} (rows : List (InputRow ε)) (i : ℕ)
    (x : InputRow ε) (r : DetectionRow ε)
    (hx : rows[i]? = some x)
    (hr : (processFile rows).table1[i]? = some r) :
    (x.ace_before ≠ x.ace_after → r.anomaly_score = 1) ∧
    (x.ace_before = x.ace_after → r.anomaly_score = -1) ∧
    (x.ace_after > x.ace_before → r.more_or_less = "more") ∧
    (x.ace_after < x.ace_before → r.more_or_less = "less") ∧
    (x.ace_after = x.ace_before → r.more_or_less = "equal") ∧
    (x.ace_before ≠ x.ace_after → r.error = |x.ace_after - x.ace_before|) ∧
    (x.ace_before = x.ace_after → r.error = 0) := by
  rw [processFile_table1, List.getElem?_map, hx, Option.map_some'] at hr
  obtain rfl : detectRow x = r := by injection hr
  refine ⟨fun h => ?_, fun h => ?_, fun h => ?_, fun h => ?_, fun h => ?_,
    fun h => ?_, fun h => ?_⟩
  · simp [detectRow, anomalyScore, h]
  · simp [detectRow, anomalyScore, h]
  · simp [detectRow, moreOrLess, h]
  · simp [detectRow, moreOrLess, h, lt_asymm h]
  · simp [detectRow, moreOrLess, h, lt_irrefl]
  · simp [detectRow, rowError, h]
  · simp [detectRow, rowError, h]

/-- Claim C1, witness: the classifier on the concrete row
(before, after) = (10, 12). -/
theorem C1_classifier_witness :
    (sampleRows[1]? = some ⟨10, 12, ()⟩) ∧
    ((processFile sampleRows).table1[1]? =
      some ⟨10, 12, (), 1, true, "more", 2⟩) ∧
    (((10 : ℚ) ≠ 12 →
      (⟨10, 12, (), 1, true, "more", 2⟩ : DetectionRow Unit).anomaly_score = 1) ∧
    ((10 : ℚ) = 12 →
      (⟨10, 12, (), 1, true, "more", 2⟩ : DetectionRow Unit).anomaly_score = -1) ∧
    ((12 : ℚ) > 10 →
      (⟨10, 12, (), 1, true, "more", 2⟩ : DetectionRow Unit).more_or_less = "more") ∧
    ((12 : ℚ) < 10 →
      (⟨10, 12, (), 1, true, "more", 2⟩ : DetectionRow Unit).more_or_less = "less") ∧
    ((12 : ℚ) = 10 →
      (⟨10, 12, (), 1, true, "more", 2⟩ : DetectionRow Unit).more_or_less = "equal") ∧
    ((10 : ℚ) ≠ 12 →
      (⟨10, 12, (), 1, true, "more", 2⟩ : DetectionRow Unit).error = |(12 : ℚ) - 10|) ∧
    ((10 : ℚ) = 12 →
      (⟨10, 12, (), 1, true, "more", 2⟩ : DetectionRow Unit).error = 0)) := by
  have hx : sampleRows[1]? = some ⟨10, 12, ()⟩ := rfl
  have hr : (processFile sampleRows).table1[1]? =
      some ⟨10, 12, (), 1, true, "more", 2⟩ := by
    norm_num [sampleRows, processFile_table1, detectRow, anomalyScore, moreOrLess,
      rowError]
  exact ⟨hx, hr, C1_classifier sampleRows 1 _ _ hx hr⟩

/-- Claim C4: for every row of Table 1, the four derived detection
fields agree: is_anomaly holds iff anomaly_score = +1, iff error > 0,
iff direction ≠ "equal". -/
theorem C4_consistency {ε : Type} (rows : List (InputRow ε))
    (r : DetectionRow ε) (hr : r ∈ (processFile rows).table1) :
    (r.is_anomaly = true ↔ r.anomaly_score = 1) ∧
    (r.is_anomaly = true ↔ 0 < r.error) ∧
    (r.is_anomaly = true ↔ r.more_or_less ≠ "equal") := by
  rw [processFile_table1] at hr
  obtain ⟨x, -, rfl⟩ := List.mem_map.1 hr
  by_cases h : x.ace_before = x.ace_after
  · simp [detectRow, anomalyScore, moreOrLess, rowError, h, lt_irrefl]
  · have hne : x.ace_after ≠ x.ace_before := fun e => h e.symm
    have herr : 0 < |x.ace_after - x.ace_before| :=
      abs_pos.mpr (sub_ne_zero.mpr hne)
    rcases hne.lt_or_lt with hlt | hgt
    · simp [detectRow, anomalyScore, moreOrLess, rowError, h, hlt, lt_asymm hlt,
        herr, (by decide : ("less" : String) ≠ "equal")]
    · simp [detectRow, anomalyScore, moreOrLess, rowError, h, hgt, herr,
        (by decide : ("more" : String) ≠ "equal")]

/-- Claim C4, witness: consistency of the concrete detection row built
from (before, after) = (5, 4). -/
theorem C4_consistency_witness :
    ((⟨5, 4, (), 1, true, "less", 1⟩ : DetectionRow Unit) ∈
      (processFile sampleRows).table1) ∧
    (((⟨5, 4, (), 1, true, "less", 1⟩ : DetectionRow Unit).is_anomaly = true ↔
      (⟨5, 4, (), 1, true, "less", 1⟩ : DetectionRow Unit).anomaly_score = 1) ∧
    ((⟨5, 4, (), 1, true, "less", 1⟩ : DetectionRow Unit).is_anomaly = true ↔
      0 < (⟨5, 4, (), 1, true, "less", 1⟩ : DetectionRow Unit).error) ∧
    ((⟨5, 4, (), 1, true, "less", 1⟩ : DetectionRow Unit).is_anomaly = true ↔
      (⟨5, 4, (), 1, true, "less", 1⟩ : DetectionRow Unit).more_or_less ≠ "equal")) := by
  have hr : (⟨5, 4, (), 1, true, "less", 1⟩ : DetectionRow Unit) ∈
      (processFile sampleRows).table1 := by
    norm_num [sampleRows, processFile_table1, detectRow, anomalyScore, moreOrLess,
      rowError]
  exact ⟨hr, C4_consistency sampleRows _ hr⟩

/-- Claim C2: when capped_pct is the finite value c, every Table 2 row
has estimated = before verbatim if anomaly_score = −1, and
estimated = round4(before × (1 + c/100)) if anomaly_score = +1;
moreover the estimator reads only (before, anomaly_score, capped_pct)
from a row, never its after value. -/
theorem C2_estimated {ε : Type} (rows : List (InputRow ε)) (c : ℚ)
    (hc : (processFile rows).capped_pct = PyFloat.fin c)
    (r : CorrectedRow ε) (hr : r ∈ (processFile rows).table2) :
    (r.anomaly_score = -1 → r.estimated = PyFloat.fin r.ace_before) ∧
    (r.anomaly_score = 1 →
      r.estimated = PyFloat.fin (round4 (r.ace_before * (1 + c / 100)))) ∧
    (∀ (d d' : DetectionRow ε) (p : PyFloat),
      d.ace_before = d'.ace_before → d.anomaly_score = d'.anomaly_score →
      estRow p d = estRow p d') := by
  rw [processFile_table2] at hr
  obtain ⟨d, -, rfl⟩ := List.mem_map.1 hr
  refine ⟨fun h => ?_, fun h => ?_, fun d d' p h1 h2 => ?_⟩
  · show estRow (processFile rows).capped_pct d = PyFloat.fin d.ace_before
    have hd : d.anomaly_score = -1 := h
    simp [estRow, hd]
  · show estRow (processFile rows).capped_pct d =
      PyFloat.fin (round4 (d.ace_before * (1 + c / 100)))
    have hd : d.anomaly_score = 1 := h
    rw [hc]
    simp [estRow, hd]
  · simp only [estRow, h1, h2]

/-- Claim C2, witness: the anomalous row (10, 12) of the sample data
set, whose capped_pct is the finite value 5. -/
theorem C2_estimated_witness :
    ((processFile sampleRows).capped_pct = PyFloat.fin 5) ∧
    ((⟨⟨10, 12, (), 1, true, "more", 2⟩, PyFloat.fin (21/2)⟩ : CorrectedRow Unit) ∈
      (processFile sampleRows).table2) ∧
    (((⟨⟨10, 12, (), 1, true, "more", 2⟩, PyFloat.fin (21/2)⟩ : CorrectedRow Unit).anomaly_score = -1 →
      (⟨⟨10, 12, (), 1, true, "more", 2⟩, PyFloat.fin (21/2)⟩ : CorrectedRow Unit).estimated =
        PyFloat.fin (⟨⟨10, 12, (), 1, true, "more", 2⟩, PyFloat.fin (21/2)⟩ : CorrectedRow Unit).ace_before) ∧
    ((⟨⟨10, 12, (), 1, true, "more", 2⟩, PyFloat.fin (21/2)⟩ : CorrectedRow Unit).anomaly_score = 1 →
      (⟨⟨10, 12, (), 1, true, "more", 2⟩, PyFloat.fin (21/2)⟩ : CorrectedRow Unit).estimated =
        PyFloat.fin (round4 ((⟨⟨10, 12, (), 1, true, "more", 2⟩, PyFloat.fin (21/2)⟩ : CorrectedRow Unit).ace_before * (1 + 5 / 100)))) ∧
    (∀ (d d' : DetectionRow Unit) (p : PyFloat),
      d.ace_before = d'.ace_before → d.anomaly_score = d'.anomaly_score →
      estRow p d = estRow p d')) := by
  have hc : (processFile sampleRows).capped_pct = PyFloat.fin 5 := by
    norm_num [sampleRows, processFile_capped_pct, processFile_avg_error_pct,
      processFile_avg_error, processFile_table1, detectRow, anomalyScore,
      moreOrLess, rowError, listMean, pyDiv, pyMul100, pyMin]
  have hr : (⟨⟨10, 12, (), 1, true, "more", 2⟩, PyFloat.fin (21/2)⟩ : CorrectedRow Unit) ∈
      (processFile sampleRows).table2 := by
    norm_num [sampleRows, processFile_table2, processFile_table1,
      processFile_capped_pct, processFile_avg_error_pct, processFile_avg_error,
      detectRow, anomalyScore, moreOrLess, rowError, listMean, pyDiv, pyMul100,
      pyMin, correctRow, estRow, round4, roundHalfEven, Int.fract, Int.even_iff]
  exact ⟨hc, hr, C2_estimated sampleRows 5 hc _ hr⟩

/-- Claim C3: for a non-empty row set whose before column has finite
non-zero mean m, the summary scalars are avg_error = mean of the error
column, avg_error_pct = avg_error / m × 100, total_error = sum of the
error column, and capped_pct = min(avg_error_pct, 5); consequently
capped_pct lies in [0, 5] whenever avg_error_pct ≥ 0, and equals
avg_error_pct whenever avg_error_pct < 5. -/
theorem C3_summary {ε : Type} (rows : List (InputRow ε)) (m : ℚ)
    (hne : rows ≠ [])
    (hm : listMean ((processFile rows).table1.map (·.ace_before)) = PyFloat.fin m)
    (hm0 : m ≠ 0) :
    (processFile rows).avg_error =
      PyFloat.fin (((processFile rows).table1.map (·.error)).sum /
        ((processFile rows).table1.map (·.error)).length) ∧
    (processFile rows).avg_error_pct =
      PyFloat.fin (((processFile rows).table1.map (·.error)).sum /
        ((processFile rows).table1.map (·.error)).length / m * 100) ∧
    (processFile rows).total_error =
      ((processFile rows).table1.map (·.error)).sum ∧
    (processFile rows).capped_pct =
      PyFloat.fin (min (((processFile rows).table1.map (·.error)).sum /
        ((processFile rows).table1.map (·.error)).length / m * 100) 5) ∧
    (0 ≤ ((processFile rows).table1.map (·.error)).sum /
        ((processFile rows).table1.map (·.error)).length / m * 100 →
      0 ≤ min (((processFile rows).table1.map (·.error)).sum /
        ((processFile rows).table1.map (·.error)).length / m * 100) 5 ∧
      min (((processFile rows).table1.map (·.error)).sum /
        ((processFile rows).table1.map (·.error)).length / m * 100) 5 ≤ 5) ∧
    (((processFile rows).table1.map (·.error)).sum /
        ((processFile rows).table1.map (·.error)).length / m * 100 < 5 →
      min (((processFile rows).table1.map (·.error)).sum /
        ((processFile rows).table1.map (·.error)).length / m * 100) 5 =
        ((processFile rows).table1.map (·.error)).sum /
        ((processFile rows).table1.map (·.error)).length / m * 100) := by
  have hE : ((processFile rows).table1.map (·.error)).isEmpty = false := by
    rw [processFile_table1]
    simp [List.isEmpty_iff, hne]
  have h1 : (processFile rows).avg_error =
      PyFloat.fin (((processFile rows).table1.map (·.error)).sum /
        ((processFile rows).table1.map (·.error)).length) := by
    rw [processFile_avg_error, listMean, hE]
    simp
  have h2 : (processFile rows).avg_error_pct =
      PyFloat.fin (((processFile rows).table1.map (·.error)).sum /
        ((processFile rows).table1.map (·.error)).length / m * 100) := by
    rw [processFile_avg_error_pct, h1, hm, pyDiv]
    simp [hm0, pyMul100, div_eq_div_iff]
  have h4 : (processFile rows).capped_pct =
      PyFloat.fin (min (((processFile rows).table1.map (·.error)).sum /
        ((processFile rows).table1.map (·.error)).length / m * 100) 5) := by
    rw [processFile_capped_pct, h2, pyMin]
    split_ifs with h
    · rw [min_eq_right h.le]
    · rw [min_eq_left (not_lt.mp h)]
  refine ⟨h1, h2, processFile_total_error rows, h4, fun hP => ⟨le_min hP (by norm_num), min_le_right _ _⟩,
    fun hP => min_eq_left hP.le⟩

/-- Claim C3, witness: the sample data set, whose before column has
mean 25/3 and whose summary comes out as avg_error = 1,
avg_error_pct = 12, total_error = 3, capped_pct = min 12 5 = 5. -/
theorem C3_summary_witness :
    (sampleRows ≠ []) ∧
    (listMean ((processFile sampleRows).table1.map (·.ace_before)) =
      PyFloat.fin (25/3)) ∧
    ((25/3 : ℚ) ≠ 0) ∧
    ((processFile sampleRows).avg_error =
      PyFloat.fin (((processFile sampleRows).table1.map (·.error)).sum /
        ((processFile sampleRows).table1.map (·.error)).length) ∧
    (processFile sampleRows).avg_error_pct =
      PyFloat.fin (((processFile sampleRows).table1.map (·.error)).sum /
        ((processFile sampleRows).table1.map (·.error)).length / (25/3) * 100) ∧
    (processFile sampleRows).total_error =
      ((processFile sampleRows).table1.map (·.error)).sum ∧
    (processFile sampleRows).capped_pct =
      PyFloat.fin (min (((processFile sampleRows).table1.map (·.error)).sum /
        ((processFile sampleRows).table1.map (·.error)).length / (25/3) * 100) 5) ∧
    (0 ≤ ((processFile sampleRows).table1.map (·.error)).sum /
        ((processFile sampleRows).table1.map (·.error)).length / (25/3) * 100 →
      0 ≤ min (((processFile sampleRows).table1.map (·.error)).sum /
        ((processFile sampleRows).table1.map (·.error)).length / (25/3) * 100) 5 ∧
      min (((processFile sampleRows).table1.map (·.error)).sum /
        ((processFile sampleRows).table1.map (·.error)).length / (25/3) * 100) 5 ≤ 5) ∧
    (((processFile sampleRows).table1.map (·.error)).sum /
        ((processFile sampleRows).table1.map (·.error)).length / (25/3) * 100 < 5 →
      min (((processFile sampleRows).table1.map (·.error)).sum /
        ((processFile sampleRows).table1.map (·.error)).length / (25/3) * 100) 5 =
        ((processFile sampleRows).table1.map (·.error)).sum /
        ((processFile sampleRows).table1.map (·.error)).length / (25/3) * 100)) := by
  have hne : sampleRows ≠ [] := by simp [sampleRows]
  have hm : listMean ((processFile sampleRows).table1.map (·.ace_before)) =
      PyFloat.fin (25/3) := by
    norm_num [sampleRows, processFile_table1, detectRow, anomalyScore,
      moreOrLess, rowError, listMean]
  have hm0 : (25/3 : ℚ) ≠ 0 := by norm_num
  exact ⟨hne, hm, hm0, C3_summary sampleRows (25/3) hne hm hm0⟩

/-- Claim C5, counterexample: on the empty row set the pipeline does
not raise; it returns normally, and the summary scalars avg_error,
avg_error_pct and capped_pct are all NaN. -/
theorem C5_counterexample :
    (processFile ([] : List (InputRow Unit))).avg_error = PyFloat.nan ∧
    (processFile ([] : List (InputRow Unit))).avg_error_pct = PyFloat.nan ∧
    (processFile ([] : List (InputRow Unit))).capped_pct = PyFloat.nan ∧
    (processFile ([] : List (InputRow Unit))).total_error = 0 ∧
    (processFile ([] : List (InputRow Unit))).table1 = [] ∧
    (processFile ([] : List (InputRow Unit))).table2 = [] :=
  ⟨rfl, rfl, rfl, rfl, rfl, rfl⟩

/-- Claim C5, amended: on the empty row set the pipeline raises
nothing; it returns empty tables, total_error = 0, and NaN for
avg_error, avg_error_pct and capped_pct. -/
theorem C5_empty_amended (ε : Type) :
    processFile ([] : List (InputRow ε)) =
      { table1 := [], table2 := [], avg_error := PyFloat.nan,
        avg_error_pct := PyFloat.nan, total_error := 0,
        capped_pct := PyFloat.nan } := rfl

/-- Claim C6, counterexample: on the single row (before, after) = (0, 0)
the baseline mean is 0, yet the pipeline does not raise; it emits both
one-row tables and a NaN avg_error_pct. -/
theorem C6_counterexample :
    (listMean ((processFile ([⟨0, 0, ()⟩] : List (InputRow Unit))).table1.map
      (·.ace_before)) = PyFloat.fin 0) ∧
    (processFile ([⟨0, 0, ()⟩] : List (InputRow Unit))).avg_error_pct = PyFloat.nan ∧
    (processFile ([⟨0, 0, ()⟩] : List (InputRow Unit))).capped_pct = PyFloat.nan ∧
    (processFile ([⟨0, 0, ()⟩] : List (InputRow Unit))).table1.length = 1 ∧
    (processFile ([⟨0, 0, ()⟩] : List (InputRow Unit))).table2.length = 1 := by
  refine ⟨?_, ?_, ?_, rfl, rfl⟩ <;>
    norm_num [processFile_table1, processFile_avg_error_pct, processFile_avg_error,
      processFile_capped_pct, detectRow, anomalyScore, moreOrLess, rowError,
      listMean, pyDiv, pyMul100, pyMin]

/-- Claim C6, amended: for a non-empty row set whose before column sums
to 0 (mean baseline 0), the pipeline does not raise a distinct error;
it still emits tables of full length, and avg_error_pct degenerates to
NaN or +infinity instead of a finite value. -/
theorem C6_degenerate_amended {ε : Type} (rows : List (InputRow ε))
    (hne : rows ≠ [])
    (h0 : ((processFile rows).table1.map (·.ace_before)).sum = 0) :
    ((processFile rows).avg_error_pct = PyFloat.nan ∨
      (processFile rows).avg_error_pct = PyFloat.inf) ∧
    (processFile rows).table1.length = rows.length ∧
    (processFile rows).table2.length = rows.length := by
  have hB : ((processFile rows).table1.map (·.ace_before)).isEmpty = false := by
    rw [processFile_table1]
    simp [List.isEmpty_iff, hne]
  have hmB : listMean ((processFile rows).table1.map (·.ace_before)) =
      PyFloat.fin 0 := by
    rw [listMean, hB, h0]
    simp
  have hE : ((processFile rows).table1.map (·.error)).isEmpty = false := by
    rw [processFile_table1]
    simp [List.isEmpty_iff, hne]
  have hA : (processFile rows).avg_error =
      PyFloat.fin (((processFile rows).table1.map (·.error)).sum /
        ((processFile rows).table1.map (·.error)).length) := by
    rw [processFile_avg_error, listMean, hE]
    simp
  have hsum : 0 ≤ ((processFile rows).table1.map (·.error)).sum := by
    refine List.sum_nonneg fun e he => ?_
    obtain ⟨d, hd, rfl⟩ := List.mem_map.1 he
    rw [processFile_table1] at hd
    obtain ⟨x, -, rfl⟩ := List.mem_map.1 hd
    show 0 ≤ rowError x.ace_before x.ace_after
    rw [rowError]
    split_ifs
    · exact abs_nonneg _
    · exact le_refl 0
  have hAnn : 0 ≤ ((processFile rows).table1.map (·.error)).sum /
      ((processFile rows).table1.map (·.error)).length :=
    div_nonneg hsum (by positivity)
  obtain ⟨A, hA', hApos⟩ : ∃ A, (processFile rows).avg_error = PyFloat.fin A ∧
      0 ≤ A := ⟨_, hA, hAnn⟩
  constructor
  · rw [processFile_avg_error_pct, hA', hmB]
    by_cases hz : A = 0
    · left
      simp [pyDiv, pyMul100, hz]
    · right
      have hpos : 0 < A := lt_of_le_of_ne hApos (Ne.symm hz)
      simp [pyDiv, pyMul100, hz, hpos]
  · constructor
    · rw [processFile_table1]
      exact List.length_map rows detectRow
    · rw [processFile_table2]
      rw [List.length_map, processFile_table1, List.length_map]

/-- Claim C6 amended, witness: the single row (0, 0). -/
theorem C6_degenerate_amended_witness :
    (([⟨0, 0, ()⟩] : List (InputRow Unit)) ≠ []) ∧
    (((processFile ([⟨0, 0, ()⟩] : List (InputRow Unit))).table1.map
      (·.ace_before)).sum = 0) ∧
    (((processFile ([⟨0, 0, ()⟩] : List (InputRow Unit))).avg_error_pct = PyFloat.nan ∨
      (processFile ([⟨0, 0, ()⟩] : List (InputRow Unit))).avg_error_pct = PyFloat.inf) ∧
    (processFile ([⟨0, 0, ()⟩] : List (InputRow Unit))).table1.length =
      ([⟨0, 0, ()⟩] : List (InputRow Unit)).length ∧
    (processFile ([⟨0, 0, ()⟩] : List (InputRow Unit))).table2.length =
      ([⟨0, 0, ()⟩] : List (InputRow Unit)).length) := by
  have hne : ([⟨0, 0, ()⟩] : List (InputRow Unit)) ≠ [] := by simp
  have h0 : ((processFile ([⟨0, 0, ()⟩] : List (InputRow Unit))).table1.map
      (·.ace_before)).sum = 0 := by
    norm_num [processFile_table1, detectRow, anomalyScore, moreOrLess, rowError]
  exact ⟨hne, h0, C6_degenerate_amended _ hne h0⟩

/-- Claim C7: re-running the pipeline on Table A's own (before, after)
values reproduces exactly the same tables and summary scalars. -/
theorem C7_idempotent {ε : Type} (rows : List (InputRow ε)) :
    processFile ((processFile rows).table1.map toInputRow) = processFile rows := by
  have hcomp : (toInputRow ∘ detectRow : InputRow ε → InputRow ε) = id :=
    funext fun x => rfl
  have h : (processFile rows).table1.map toInputRow = rows := by
    rw [processFile_table1, List.map_map, hcomp, List.map_id]
  rw [h]

/-- Claim C8: every input column (before, after, and all remaining
columns, carried in `extra`) appears unchanged in the corresponding row
of Table A and of Table B. -/
theorem C8_passthrough {ε : Type} (rows : List (InputRow ε)) (i : ℕ)
    (x : InputRow ε) (r : DetectionRow ε) (r2 : CorrectedRow ε)
    (hx : rows[i]? = some x)
    (h1 : (processFile rows).table1[i]? = some r)
    (h2 : (processFile rows).table2[i]? = some r2) :
    r.ace_before = x.ace_before ∧ r.ace_after = x.ace_after ∧
    r.extra = x.extra ∧
    r2.ace_before = x.ace_before ∧ r2.ace_after = x.ace_after ∧
    r2.extra = x.extra := by
  rw [processFile_table1, List.getElem?_map, hx, Option.map_some'] at h1
  obtain rfl : detectRow x = r := by injection h1
  rw [processFile_table2, processFile_table1, List.getElem?_map,
    List.getElem?_map, hx, Option.map_some', Option.map_some'] at h2
  obtain rfl : correctRow (processFile rows).capped_pct (detectRow x) = r2 := by
    injection h2
  exact ⟨rfl, rfl, rfl, rfl, rfl, rfl⟩

/-- Claim C8, witness: a row carrying the extra column value "note". -/
theorem C8_passthrough_witness :
    (([⟨1, 2, "note"⟩] : List (InputRow String))[0]? = some ⟨1, 2, "note"⟩) ∧
    ((processFile ([⟨1, 2, "note"⟩] : List (InputRow String))).table1[0]? =
      some ⟨1, 2, "note", 1, true, "more", 1⟩) ∧
    ((processFile ([⟨1, 2, "note"⟩] : List (InputRow String))).table2[0]? =
      some ⟨⟨1, 2, "note", 1, true, "more", 1⟩, PyFloat.fin (21/20)⟩) ∧
    ((⟨1, 2, "note", 1, true, "more", 1⟩ : DetectionRow String).ace_before = (1 : ℚ) ∧
    (⟨1, 2, "note", 1, true, "more", 1⟩ : DetectionRow String).ace_after = (2 : ℚ) ∧
    (⟨1, 2, "note", 1, true, "more", 1⟩ : DetectionRow String).extra = "note" ∧
    (⟨⟨1, 2, "note", 1, true, "more", 1⟩, PyFloat.fin (21/20)⟩ : CorrectedRow String).ace_before = (1 : ℚ) ∧
    (⟨⟨1, 2, "note", 1, true, "more", 1⟩, PyFloat.fin (21/20)⟩ : CorrectedRow String).ace_after = (2 : ℚ) ∧
    (⟨⟨1, 2, "note", 1, true, "more", 1⟩, PyFloat.fin (21/20)⟩ : CorrectedRow String).extra = "note") := by
  have hx : (([⟨1, 2, "note"⟩] : List (InputRow String))[0]? = some ⟨1, 2, "note"⟩) := rfl
  have h1 : (processFile ([⟨1, 2, "note"⟩] : List (InputRow String))).table1[0]? =
      some ⟨1, 2, "note", 1, true, "more", 1⟩ := by
    norm_num [processFile_table1, detectRow, anomalyScore, moreOrLess, rowError]
  have h2 : (processFile ([⟨1, 2, "note"⟩] : List (InputRow String))).table2[0]? =
      some ⟨⟨1, 2, "note", 1, true, "more", 1⟩, PyFloat.fin (21/20)⟩ := by
    norm_num [processFile_table2, processFile_table1, processFile_capped_pct,
      processFile_avg_error_pct, processFile_avg_error, detectRow, anomalyScore,
      moreOrLess, rowError, listMean, pyDiv, pyMul100, pyMin, correctRow, estRow,
      round4, roundHalfEven, Int.fract, Int.even_iff]
  exact ⟨hx, h1, h2, C8_passthrough _ 0 _ _ _ hx h1 h2⟩

lemma floor_add_half (n : ℤ) : ⌊(n : ℚ) + 1 / 2⌋ = n := by
  rw [Int.floor_eq_iff]
  constructor
  · linarith
  · linarith

lemma round4_tie (n : ℤ) :
    round4 ((2 * n + 1) / 20000) =
      (if Even n then (n : ℚ) else (n : ℚ) + 1) / 10000 := by
  have hx : ((2 * n + 1 : ℤ) : ℚ) / 20000 * 10000 = (n : ℚ) + 1 / 2 := by
    push_cast
    ring
  rw [round4, show ((2 * n + 1 : ℚ) / 20000) = (((2 * n + 1 : ℤ) : ℚ) / 20000) by
    push_cast; ring, hx, roundHalfEven]
  simp only [floor_add_half]
  have hr : (n : ℚ) + 1 / 2 - n = 1 / 2 := by ring
  rw [hr]
  norm_num

lemma roundHalfEven_ge (x : ℚ) : x - 1 / 2 ≤ (roundHalfEven x : ℚ) := by
  have h1 : (⌊x⌋ : ℚ) ≤ x := Int.floor_le x
  have h2 : x < ⌊x⌋ + 1 := Int.lt_floor_add_one x
  rw [roundHalfEven]
  split_ifs with ha hb hc
  · linarith
  · push_cast
    linarith
  · linarith
  · push_cast
    linarith

lemma round4_ge (x : ℚ) : x - 1 / 20000 ≤ round4 x := by
  have h := roundHalfEven_ge (x * 10000)
  rw [round4]
  linarith

/-- Claim C9: the 4-decimal rounding used for the estimated value of an
anomalous row is round-half-to-even: when before × (1 + c/100) falls
exactly halfway between two 4-decimal neighbours n/10000 and
(n+1)/10000, the estimated value is the neighbour with the even
numerator, not the one away from zero. -/
theorem C9_round_half_even {ε : Type} (r : DetectionRow ε) (c : ℚ) (n : ℤ)
    (hs : r.anomaly_score = 1)
    (ht : r.ace_before * (1 + c / 100) = (2 * n + 1) / 20000) :
    estRow (PyFloat.fin c) r =
      PyFloat.fin ((if Even n then (n : ℚ) else (n : ℚ) + 1) / 10000) := by
  have h1 : r.anomaly_score ≠ -1 := by rw [hs]; decide
  simp only [estRow, if_neg h1]
  rw [ht, round4_tie]

/-- Claim C9, witness: before = 1/32 = 0.03125 and c = 0 give the exact
tie 0.03125 × 10000 = 312.5, which rounds to the even neighbour 312,
i.e. estimated = 0.0312, not 0.0313. -/
theorem C9_round_half_even_witness :
    ((⟨1/32, 5, (), 1, true, "more", 159/32⟩ : DetectionRow Unit).anomaly_score = 1) ∧
    ((⟨1/32, 5, (), 1, true, "more", 159/32⟩ : DetectionRow Unit).ace_before *
      (1 + 0 / 100) = (2 * (312 : ℤ) + 1) / 20000) ∧
    (estRow (PyFloat.fin 0) (⟨1/32, 5, (), 1, true, "more", 159/32⟩ : DetectionRow Unit) =
      PyFloat.fin ((if Even (312 : ℤ) then ((312 : ℤ) : ℚ) else ((312 : ℤ) : ℚ) + 1) / 10000)) := by
  have hs : (⟨1/32, 5, (), 1, true, "more", 159/32⟩ : DetectionRow Unit).anomaly_score = 1 := rfl
  have ht : (⟨1/32, 5, (), 1, true, "more", 159/32⟩ : DetectionRow Unit).ace_before *
      (1 + 0 / 100) = (2 * (312 : ℤ) + 1) / 20000 := by norm_num
  exact ⟨hs, ht, C9_round_half_even _ 0 312 hs ht⟩

/-- Claim C10, counterexample: on the single anomalous row
(before, after) = (1.00001, 1.00002) the pipeline produces the positive
capped percentage 100/100001, yet estimated = 1, which is strictly
below before = 1.00001: the 4-decimal rounding undoes the upward
correction. -/
theorem C10_counterexample :
    ((processFile ([⟨100001/100000, 50001/50000, ()⟩] : List (InputRow Unit))).capped_pct =
      PyFloat.fin (100/100001)) ∧
    ((0 : ℚ) < 100/100001) ∧ ((100 : ℚ)/100001 < 5) ∧
    ((processFile ([⟨100001/100000, 50001/50000, ()⟩] : List (InputRow Unit))).table2.map
      (·.anomaly_score) = [1]) ∧
    ((processFile ([⟨100001/100000, 50001/50000, ()⟩] : List (InputRow Unit))).table2.map
      (·.ace_before) = [100001/100000]) ∧
    ((processFile ([⟨100001/100000, 50001/50000, ()⟩] : List (InputRow Unit))).table2.map
      (·.estimated) = [PyFloat.fin 1]) ∧
    ((1 : ℚ) < 100001/100000) := by
  refine ⟨?_, by norm_num, by norm_num, ?_, ?_, ?_, by norm_num⟩ <;>
    norm_num [processFile, detectRow, anomalyScore, moreOrLess, rowError,
      listMean, pyDiv, pyMul100, pyMin, correctRow, estRow, round4,
      roundHalfEven, abs_of_pos, Int.fract, Int.even_iff]

/-- Claim C10, amended: for an anomalous row with before > 0 and a
finite capped percentage c > 0, the unrounded correction
before × (1 + c/100) is strictly greater than before, and the estimated
value is strictly greater than before − 1/20000; the 4-decimal rounding
can however pull the estimated value down to or below before itself. -/
theorem C10_upward_amended {ε : Type} (r : DetectionRow ε) (c : ℚ)
    (hb : 0 < r.ace_before) (hc : 0 < c) (hs : r.anomaly_score = 1) :
    estRow (PyFloat.fin c) r =
      PyFloat.fin (round4 (r.ace_before * (1 + c / 100))) ∧
    r.ace_before < r.ace_before * (1 + c / 100) ∧
    r.ace_before - 1 / 20000 < round4 (r.ace_before * (1 + c / 100)) := by
  have h1 : r.anomaly_score ≠ -1 := by rw [hs]; decide
  have h3 : r.ace_before < r.ace_before * (1 + c / 100) :=
    lt_mul_of_one_lt_right hb (by linarith)
  have h4 := round4_ge (r.ace_before * (1 + c / 100))
  exact ⟨by simp only [estRow, if_neg h1], h3, by linarith⟩

/-- Claim C10 amended, witness: before = 1, c = 1 gives the unrounded
correction 1.01 > 1 and estimated = round4(1.01) > 1 − 1/20000. -/
theorem C10_upward_amended_witness :
    ((0 : ℚ) < (⟨1, 2, (), 1, true, "more", 1⟩ : DetectionRow Unit).ace_before) ∧
    ((0 : ℚ) < 1) ∧
    ((⟨1, 2, (), 1, true, "more", 1⟩ : DetectionRow Unit).anomaly_score = 1) ∧
    (estRow (PyFloat.fin 1) (⟨1, 2, (), 1, true, "more", 1⟩ : DetectionRow Unit) =
      PyFloat.fin (round4 ((⟨1, 2, (), 1, true, "more", 1⟩ : DetectionRow Unit).ace_before * (1 + 1 / 100))) ∧
    (⟨1, 2, (), 1, true, "more", 1⟩ : DetectionRow Unit).ace_before <
      (⟨1, 2, (), 1, true, "more", 1⟩ : DetectionRow Unit).ace_before * (1 + 1 / 100) ∧
    (⟨1, 2, (), 1, true, "more", 1⟩ : DetectionRow Unit).ace_before - 1 / 20000 <
      round4 ((⟨1, 2, (), 1, true, "more", 1⟩ : DetectionRow Unit).ace_before * (1 + 1 / 100))) := by
  have hb : (0 : ℚ) < (⟨1, 2, (), 1, true, "more", 1⟩ : DetectionRow Unit).ace_before := by
    norm_num
  have hc : (0 : ℚ) < 1 := by norm_num
  have hs : (⟨1, 2, (), 1, true, "more", 1⟩ : DetectionRow Unit).anomaly_score = 1 := rfl
  exact ⟨hb, hc, hs, C10_upward_amended _ 1 hb hc hs⟩

end LabApp
